import Mathlib

/-!
Verification development for the video-to-audio front-end controller.

The definitions below are a shallow embedding of the job-polling controller
implemented by the persistent useExtract hook (the variant that saves the
in-flight job identifier to localStorage), together with the HTTP error
extraction of the API clients.  JavaScript is single-threaded and
cooperative, so every async continuation of the hook is embedded as an
atomic state-transition function on an explicit controller state; the
suspension points (the network fetches) are where a transition function
ends and the corresponding resolve function begins.  Instrumentation
fields (cancelCount, onCompleteCalls, onErrorCalls, statusFetches) record
the externally observable events: clearInterval calls on a live timer,
callback invocations, and issued status fetches.
-/

/-! ## Data model (frontend types) -/

/-- Status tags of a job, a closed union in the front-end types:
pending, processing, downloading, extracting, uploading, completed, failed. -/
inductive JobStatus where
  | pending
  | processing
  | downloading
  | extracting
  | uploading
  | completed
  | failed
deriving DecidableEq, Repr

/-- The two terminal statuses. -/
def JobStatus.isTerminal : JobStatus → Bool
  | JobStatus.completed => true
  | JobStatus.failed => true
  | _ => false

/-- Descriptive video metadata attached to a job. -/
structure VideoInfo where
  id : String
  title : String
  duration_seconds : Nat
  duration_formatted : String
  thumbnail : Option String := none
  source : String
  channel : Option String := none
deriving DecidableEq, Repr

/-- Terminal result payload of a job: success fields or an error message. -/
structure ExtractResult where
  success : Bool
  audio_url : Option String := none
  filename : Option String := none
  file_size : Option String := none
  format : Option String := none
  quality : Option String := none
  error : Option String := none
deriving DecidableEq, Repr

/-- A job snapshot as returned by the service (JobResponse). -/
structure JobResponse where
  job_id : String
  status : JobStatus
  progress : Nat
  message : String := ""
  created_at : String := ""
  video_info : Option VideoInfo := none
  result : Option ExtractResult := none
deriving DecidableEq, Repr

/-- JavaScript a || b on strings: undefined, null and the empty string are
falsy, so the fallback is used when the option is none or holds "". -/
def jsOrElse (v : Option String) (fallback : String) : String :=
  match v with
  | some s => if s = "" then fallback else s
  | none => fallback

/-! ## localStorage model -/

/-- Client-side durable storage: an association list of key/value pairs. -/
abbrev LocalStorage := List (String × String)

/-- localStorage.getItem: first binding of the key, if any. -/
def LocalStorage.getItem : LocalStorage → String → Option String
  | [], _ => none
  | (k, v) :: rest, key => if k = key then some v else LocalStorage.getItem rest key

/-- localStorage.removeItem: drop every binding of the key. -/
def LocalStorage.removeItem : LocalStorage → String → LocalStorage
  | [], _ => []
  | (k, v) :: rest, key =>
      if k = key then LocalStorage.removeItem rest key
      else (k, v) :: LocalStorage.removeItem rest key

/-- localStorage.setItem: overwrite the key with the value. -/
def LocalStorage.setItem (ls : LocalStorage) (key value : String) : LocalStorage :=
  (key, value) :: ls.removeItem key

/-- The single fixed persistence key used by the hook. -/
def STORAGE_KEY : String := "video-to-audio-current-job"

/-! ## Controller state -/

/-- State of one useExtract controller instance.  The first block mirrors
the React state and refs; storage is the localStorage contents; the last
block records observable events for the theorems. -/
structure HookState where
  isLoading : Bool
  isPolling : Bool
  job : Option JobResponse
  videoInfo : Option VideoInfo
  error : Option String
  pollingTimer : Option Nat
  jobIdRef : Option String
  storage : LocalStorage
  nextTimerId : Nat
  cancelCount : Nat
  onCompleteCalls : List JobResponse
  onErrorCalls : List String
  statusFetches : List String
deriving DecidableEq, Repr

/-- Fresh controller state over the given storage contents. -/
def initialState (storage : LocalStorage) : HookState :=
  { isLoading := false, isPolling := false, job := none, videoInfo := none,
    error := none, pollingTimer := none, jobIdRef := none, storage := storage,
    nextTimerId := 0, cancelCount := 0, onCompleteCalls := [],
    onErrorCalls := [], statusFetches := [] }

/-- The guarded teardown used throughout the hook:
if (pollingRef.current) -- clearInterval(pollingRef.current); pollingRef.current = null. -/
def stopTimer (s : HookState) : HookState :=
  match s.pollingTimer with
  | some _ => { s with pollingTimer := none, cancelCount := s.cancelCount + 1 }
  | none => s

/-- saveJobId: localStorage.setItem(STORAGE_KEY, jobId). -/
def saveJobId (s : HookState) (jobId : String) : HookState :=
  { s with storage := s.storage.setItem STORAGE_KEY jobId }

/-- clearJobId: localStorage.removeItem(STORAGE_KEY). -/
def clearJobId (s : HookState) : HookState :=
  { s with storage := s.storage.removeItem STORAGE_KEY }

/-- getSavedJobId: localStorage.getItem(STORAGE_KEY). -/
def getSavedJobId (s : HookState) : Option String :=
  s.storage.getItem STORAGE_KEY

/-- The error message passed to setError on a failed job:
updatedJob.result?.error || "Error en la extraccion" (JS truthiness). -/
def failedStateMessage (j : JobResponse) : String :=
  jsOrElse (j.result.bind ExtractResult.error) "Error en la extracción"

/-- The message of the Error passed to onError on a failed job:
updatedJob.result?.error || "Error". -/
def failedCallbackMessage (j : JobResponse) : String :=
  jsOrElse (j.result.bind ExtractResult.error) "Error"

/-- Continuation of pollJob once the api.getJob fetch settles.  On a
rejected fetch the catch block only logs, leaving the controller state
unchanged.  On a resolved fetch the job is stored unconditionally, video
metadata is re-derived, and a terminal status stops the timer (guarded),
clears the persisted identifier and invokes the matching callback. -/
def pollJobResolve (s : HookState) (r : Except Unit JobResponse) : HookState :=
  match r with
  | Except.error _ => s
  | Except.ok updatedJob =>
      let s1 : HookState :=
        { s with job := some updatedJob,
                 videoInfo := match updatedJob.video_info with
                   | some vi => some vi
                   | none => s.videoInfo }
      if updatedJob.status = JobStatus.completed then
        let s2 := clearJobId (stopTimer { s1 with isPolling := false })
        { s2 with onCompleteCalls := s2.onCompleteCalls ++ [updatedJob] }
      else if updatedJob.status = JobStatus.failed then
        let s2 := clearJobId (stopTimer
          { s1 with isPolling := false, error := some (failedStateMessage updatedJob) })
        { s2 with onErrorCalls := s2.onErrorCalls ++ [failedCallbackMessage updatedJob] }
      else s1

/-- startPolling(jobId): record the id in jobIdRef, flip the flags, issue
one immediate pollJob fetch, then install the repeating interval timer. -/
def startPolling (s : HookState) (jobId : String) : HookState :=
  let s1 : HookState :=
    { s with jobIdRef := some jobId, isPolling := true, isLoading := false,
             statusFetches := s.statusFetches ++ [jobId] }
  { s1 with pollingTimer := some s1.nextTimerId, nextTimerId := s1.nextTimerId + 1 }

/-- One firing of the interval callback: only a live timer ticks, and the
callback issues a pollJob fetch only when jobIdRef.current is set. -/
def timerTick (s : HookState) : HookState :=
  match s.pollingTimer with
  | none => s
  | some _ =>
      match s.jobIdRef with
      | some jobId => { s with statusFetches := s.statusFetches ++ [jobId] }
      | none => s

/-- Synchronous prefix of extract, run before its fetch suspends: tear
down any previous timer and clear prior error/job state. -/
def extractStart (s : HookState) : HookState :=
  { stopTimer s with isLoading := true, isPolling := false, error := none, job := none }

/-- Continuation of extract once api.startExtraction settles.  On success
the job is stored, its identifier persisted, and polling starts; on
failure the message is surfaced, onError invoked, and nothing else done. -/
def extractResolve (s : HookState) (r : Except String JobResponse) : HookState :=
  match r with
  | Except.ok newJob => startPolling (saveJobId { s with job := some newJob } newJob.job_id) newJob.job_id
  | Except.error message =>
      { s with error := some message, isLoading := false,
               onErrorCalls := s.onErrorCalls ++ [message] }

/-- reset(): guarded timer teardown, drop the persisted identifier, clear
every piece of controller state. -/
def reset (s : HookState) : HookState :=
  { clearJobId (stopTimer s) with
      isLoading := false, isPolling := false, job := none,
      videoInfo := none, error := none, jobIdRef := none }

/-- Synchronous prefix of the mount effect (resume): read the persisted
identifier; when present, issue one api.getJob fetch for it. -/
def resumeStart (s : HookState) : HookState :=
  match getSavedJobId s with
  | some savedJobId => { s with statusFetches := s.statusFetches ++ [savedJobId] }
  | none => s

/-- The statuses for which the mount effect resumes polling. -/
def resumableStatuses : List JobStatus :=
  [JobStatus.pending, JobStatus.processing, JobStatus.downloading,
   JobStatus.extracting, JobStatus.uploading]

/-- Continuation of the mount effect once its fetch settles: a rejected
fetch just discards the persisted identifier; a resolved job is stored,
non-terminal statuses resume polling, terminal ones discard the
identifier and fire onComplete exactly for status completed. -/
def resumeResolve (s : HookState) (savedJobId : String) (r : Except Unit JobResponse) : HookState :=
  match r with
  | Except.error _ => clearJobId s
  | Except.ok existingJob =>
      let s1 : HookState :=
        { s with job := some existingJob,
                 videoInfo := match existingJob.video_info with
                   | some vi => some vi
                   | none => s.videoInfo }
      if resumableStatuses.contains existingJob.status then
        startPolling s1 savedJobId
      else
        let s2 := clearJobId s1
        if existingJob.status = JobStatus.completed then
          { s2 with onCompleteCalls := s2.onCompleteCalls ++ [existingJob] }
        else s2

/-- Hook options: pollingInterval defaults to 1000 ms when not supplied. -/
structure UseExtractOptions where
  pollingInterval : Option Nat := none
deriving DecidableEq, Repr

/-- The interval actually used: the supplied value, else the 1000 ms default. -/
def resolvedPollingInterval (o : UseExtractOptions) : Nat :=
  o.pollingInterval.getD 1000

/-! ## API client error extraction -/

/-- Parsed JSON body of a non-2xx response, as far as the clients look at it. -/
structure ErrorBody where
  detail : Option String := none
deriving DecidableEq, Repr

/-- An HTTP response: its status code and the outcome of response.json()
(none when the body is unparsable, i.e. the json() promise rejects). -/
structure HttpResponse where
  status : Nat
  body : Option ErrorBody := none
deriving DecidableEq, Repr

/-- response.ok: status in the 2xx range. -/
def HttpResponse.ok (r : HttpResponse) : Bool :=
  decide (200 ≤ r.status ∧ r.status < 300)

/-- Error message thrown by the request helper of the part_005 client:
on non-2xx, parse the body, fall back to a detail of "Error desconocido"
when unparsable, then throw error.detail || "HTTP status". -/
def requestErrorMessage (resp : HttpResponse) : Option String :=
  if resp.ok then none
  else
    let errBody : ErrorBody :=
      match resp.body with
      | some b => b
      | none => { detail := some "Error desconocido" }
    some (jsOrElse errBody.detail ("HTTP " ++ toString resp.status))

/-- Error message thrown by handleResponse of the services/api.ts client:
same shape with the generic fallback "Error en la solicitud". -/
def handleResponseErrorMessage (resp : HttpResponse) : Option String :=
  if resp.ok then none
  else
    let errBody : ErrorBody :=
      match resp.body with
      | some b => b
      | none => { detail := some "Error desconocido" }
    some (jsOrElse errBody.detail "Error en la solicitud")

/-! ## Storage lemmas -/

theorem getItem_removeItem_self (ls : LocalStorage) (k : String) :
    (ls.removeItem k).getItem k = none := by
  induction ls with
  | nil => rfl
  | cons hd tl ih =>
      obtain ⟨hk, hv⟩ := hd
      by_cases h : hk = k
      · simp [LocalStorage.removeItem, h, ih]
      · simp [LocalStorage.removeItem, LocalStorage.getItem, h, ih]

theorem getItem_removeItem_ne (ls : LocalStorage) (k k' : String) (h : k' ≠ k) :
    (ls.removeItem k).getItem k' = ls.getItem k' := by
  induction ls with
  | nil => rfl
  | cons hd tl ih =>
      obtain ⟨hk, hv⟩ := hd
      by_cases hh : hk = k
      · subst hh
        simp [LocalStorage.removeItem, LocalStorage.getItem, Ne.symm h, ih]
      · by_cases hh2 : hk = k'
        · subst hh2
          simp [LocalStorage.removeItem, LocalStorage.getItem, hh, h]
        · simp [LocalStorage.removeItem, LocalStorage.getItem, hh, hh2, ih]

theorem getItem_setItem_self (ls : LocalStorage) (k v : String) :
    (ls.setItem k v).getItem k = some v := by
  simp [LocalStorage.setItem, LocalStorage.getItem]

theorem getItem_setItem_ne (ls : LocalStorage) (k k' v : String) (h : k' ≠ k) :
    (ls.setItem k v).getItem k' = ls.getItem k' := by
  have h' : k ≠ k' := fun hc => h hc.symm
  simp [LocalStorage.setItem, LocalStorage.getItem, h', getItem_removeItem_ne ls k k' h]

/-! ## Claim theorems -/

/-- Claim C6: a submit (extract) whose job-creation request fails surfaces
the failure message as the controller error and through onError, retains
no job state, and starts no polling: the resulting state is the prior
state with the timer torn down, the flags lowered, the error set and the
one onError invocation recorded — in particular job is none, the timer is
none and no status fetch was issued. -/
theorem extract_failure_effects (s : HookState) (message : String) :
    extractResolve (extractStart s) (Except.error message) =
      { s with pollingTimer := none,
               cancelCount := if s.pollingTimer.isSome then s.cancelCount + 1 else s.cancelCount,
               isLoading := false, isPolling := false,
               error := some message, job := none,
               onErrorCalls := s.onErrorCalls ++ [message] } := by
  cases h : s.pollingTimer <;>
    simp [extractResolve, extractStart, stopTimer, h]

/-- Claim C8: a transport-level failure of a routine poll fetch leaves the
controller state literally unchanged (it is only logged), and a
subsequent successful fetch reporting a processing status is processed
normally: the job is replaced while the loop stays armed and no callback
fires. -/
theorem poll_transient_failure_swallowed (s : HookState) (j : JobResponse)
    (hj : j.status = JobStatus.processing) :
    pollJobResolve s (Except.error ()) = s
    ∧ (pollJobResolve (pollJobResolve s (Except.error ())) (Except.ok j)).job = some j
    ∧ (pollJobResolve (pollJobResolve s (Except.error ())) (Except.ok j)).pollingTimer
        = s.pollingTimer
    ∧ (pollJobResolve (pollJobResolve s (Except.error ())) (Except.ok j)).isPolling = s.isPolling
    ∧ (pollJobResolve (pollJobResolve s (Except.error ())) (Except.ok j)).onErrorCalls
        = s.onErrorCalls
    ∧ (pollJobResolve (pollJobResolve s (Except.error ())) (Except.ok j)).onCompleteCalls
        = s.onCompleteCalls
    ∧ (pollJobResolve (pollJobResolve s (Except.error ())) (Except.ok j)).error = s.error
    ∧ (pollJobResolve (pollJobResolve s (Except.error ())) (Except.ok j)).storage = s.storage := by
  refine ⟨rfl, ?_, ?_, ?_, ?_, ?_, ?_, ?_⟩ <;>
    simp [pollJobResolve, hj]

/-- Witness for poll_transient_failure_swallowed at a concrete state and
a concrete processing job. -/
theorem poll_transient_failure_swallowed_witness :
    pollJobResolve (startPolling (initialState []) "abc") (Except.error ())
        = startPolling (initialState []) "abc"
    ∧ (pollJobResolve (pollJobResolve (startPolling (initialState []) "abc") (Except.error ()))
          (Except.ok { job_id := "abc", status := JobStatus.processing, progress := 10 })).job
        = some { job_id := "abc", status := JobStatus.processing, progress := 10 } := by
  have h := poll_transient_failure_swallowed (startPolling (initialState []) "abc")
    { job_id := "abc", status := JobStatus.processing, progress := 10 } rfl
  exact ⟨h.1, h.2.1⟩

/-- Claim C10: a failing submit (extract) leaves durable storage —
including the persisted-job-identifier slot — exactly as it was, issues
no status fetch, and a later start-up (resumeStart) still attempts to
resume the previously persisted identifier by fetching it. -/
theorem extract_failure_storage_frame (s : HookState) (message oldId : String)
    (hold : getSavedJobId s = some oldId) :
    (extractResolve (extractStart s) (Except.error message)).storage = s.storage
    ∧ getSavedJobId (extractResolve (extractStart s) (Except.error message)) = some oldId
    ∧ (resumeStart (extractResolve (extractStart s) (Except.error message))).statusFetches
        = (extractResolve (extractStart s) (Except.error message)).statusFetches ++ [oldId] := by
  have hstor : (extractResolve (extractStart s) (Except.error message)).storage = s.storage := by
    cases h : s.pollingTimer <;> simp [extractResolve, extractStart, stopTimer, h]
  have hsaved : getSavedJobId (extractResolve (extractStart s) (Except.error message))
      = some oldId := by
    rw [getSavedJobId, hstor]
    exact hold
  refine ⟨hstor, hsaved, ?_⟩
  simp [resumeStart, hsaved]

/-- Witness for extract_failure_storage_frame: a failed submission over a
storage holding the identifier of an earlier job. -/
theorem extract_failure_storage_frame_witness :
    (extractResolve (extractStart (initialState [(STORAGE_KEY, "old-job")]))
        (Except.error "boom")).storage = (initialState [(STORAGE_KEY, "old-job")]).storage
    ∧ getSavedJobId (extractResolve (extractStart (initialState [(STORAGE_KEY, "old-job")]))
        (Except.error "boom")) = some "old-job" := by
  have h := extract_failure_storage_frame (initialState [(STORAGE_KEY, "old-job")])
    "boom" "old-job" rfl
  exact ⟨h.1, h.2.1⟩

/-- Counterexample to claim C2 as stated: after reset() an in-flight poll
fetch whose response arrives later is not discarded — there is no
cancellation-flag check in pollJob — so the cleared job state is
resurrected: job was none right after reset and becomes the fetched job
again when the late response is processed. -/
theorem reset_resurrection_counterexample :
    (reset (startPolling (initialState []) "abc")).job = none
    ∧ (pollJobResolve (reset (startPolling (initialState []) "abc"))
          (Except.ok { job_id := "abc", status := JobStatus.processing, progress := 10 })).job
        = some { job_id := "abc", status := JobStatus.processing, progress := 10 } := by
  exact ⟨rfl, rfl⟩

/-- Claim C2, amended: reset() cancels any pending timer, discards the
persisted identifier and clears job, metadata and error state, and is
safe to call when nothing is in flight (on a fresh idle state it is the
identity); however a poll fetch already in flight when reset() was called
is NOT discarded on arrival — pollJob re-stores the fetched job
unconditionally, with no cancellation-flag check. -/
theorem reset_clears_state_but_late_fetch_resurrects (s : HookState) (j : JobResponse) :
    (reset s).pollingTimer = none
    ∧ (reset s).job = none
    ∧ (reset s).videoInfo = none
    ∧ (reset s).error = none
    ∧ (reset s).isPolling = false
    ∧ (reset s).isLoading = false
    ∧ (reset s).jobIdRef = none
    ∧ getSavedJobId (reset s) = none
    ∧ reset (initialState []) = initialState []
    ∧ (pollJobResolve (reset s) (Except.ok j)).job = some j := by
  refine ⟨?_, rfl, rfl, rfl, rfl, rfl, rfl, ?_, ?_, ?_⟩
  · cases h : s.pollingTimer <;> simp [reset, clearJobId, stopTimer, h]
  · simp [getSavedJobId, reset, clearJobId, getItem_removeItem_self]
  · rfl
  · rcases j with ⟨id, st, pr, msg, ca, vi, res⟩
    cases h : s.pollingTimer <;>
      cases st <;>
        simp [pollJobResolve, reset, clearJobId, stopTimer, h]

/-- Counterexample to claim C1 as stated: in the overlapping-fetch race
(two fetches issued while the loop is live, both resolving with a
terminal status for the same job) the timer is indeed canceled exactly
once, but onComplete fires twice — once per terminal observation — not
exactly once. -/
theorem terminal_race_double_callback_counterexample :
    (pollJobResolve
        (pollJobResolve
          (timerTick (startPolling (initialState []) "abc"))
          (Except.ok { job_id := "abc", status := JobStatus.completed, progress := 100,
                       result := some { success := true, audio_url := some "https://x/abc.mp3" } }))
        (Except.ok { job_id := "abc", status := JobStatus.completed, progress := 100,
                     result := some { success := true, audio_url := some "https://x/abc.mp3" } })).onCompleteCalls.length
      = 2
    ∧ (pollJobResolve
        (pollJobResolve
          (timerTick (startPolling (initialState []) "abc"))
          (Except.ok { job_id := "abc", status := JobStatus.completed, progress := 100,
                       result := some { success := true, audio_url := some "https://x/abc.mp3" } }))
        (Except.ok { job_id := "abc", status := JobStatus.completed, progress := 100,
                     result := some { success := true, audio_url := some "https://x/abc.mp3" } })).cancelCount
      = 1 := by
  exact ⟨rfl, rfl⟩

/-- Claim C1, amended: when a terminal status is observed while the loop
is live, the timer is canceled exactly once (the cancellation guard is
idempotent, so a second terminal observation from an overlapping fetch
cancels nothing further), and the matching outcome callback is invoked
once per terminal observation — so a single observation invokes exactly
one callback once, while the overlapping race yields two callback
invocations in total. -/
theorem terminal_observation_timer_once_callback_per_observation
    (s : HookState) (j : JobResponse)
    (ht : s.pollingTimer.isSome = true) (hj : j.status.isTerminal = true) :
    (pollJobResolve s (Except.ok j)).cancelCount = s.cancelCount + 1
    ∧ (pollJobResolve s (Except.ok j)).pollingTimer = none
    ∧ (pollJobResolve s (Except.ok j)).onCompleteCalls.length
        + (pollJobResolve s (Except.ok j)).onErrorCalls.length
        = s.onCompleteCalls.length + s.onErrorCalls.length + 1
    ∧ (pollJobResolve (pollJobResolve s (Except.ok j)) (Except.ok j)).cancelCount
        = s.cancelCount + 1
    ∧ (pollJobResolve (pollJobResolve s (Except.ok j)) (Except.ok j)).onCompleteCalls.length
        + (pollJobResolve (pollJobResolve s (Except.ok j)) (Except.ok j)).onErrorCalls.length
        = s.onCompleteCalls.length + s.onErrorCalls.length + 2
    ∧ (j.status = JobStatus.completed →
        (pollJobResolve s (Except.ok j)).onCompleteCalls = s.onCompleteCalls ++ [j]
        ∧ (pollJobResolve s (Except.ok j)).onErrorCalls = s.onErrorCalls)
    ∧ (j.status = JobStatus.failed →
        (pollJobResolve s (Except.ok j)).onErrorCalls
            = s.onErrorCalls ++ [failedCallbackMessage j]
        ∧ (pollJobResolve s (Except.ok j)).onCompleteCalls = s.onCompleteCalls) := by
  obtain ⟨t, htt⟩ := Option.isSome_iff_exists.mp ht
  rcases j with ⟨id, st, pr, msg, ca, vi, res⟩
  cases st <;>
    simp_all [pollJobResolve, clearJobId, stopTimer, JobStatus.isTerminal] <;>
      omega

/-- Witness for terminal_observation_timer_once_callback_per_observation
at a live loop and a concrete completed job. -/
theorem terminal_observation_witness :
    (pollJobResolve (startPolling (initialState []) "abc")
        (Except.ok { job_id := "abc", status := JobStatus.completed, progress := 100 })).cancelCount
      = (startPolling (initialState []) "abc").cancelCount + 1
    ∧ (pollJobResolve (startPolling (initialState []) "abc")
        (Except.ok { job_id := "abc", status := JobStatus.completed, progress := 100 })).onCompleteCalls
      = (startPolling (initialState []) "abc").onCompleteCalls
          ++ [{ job_id := "abc", status := JobStatus.completed, progress := 100 }]
    ∧ (pollJobResolve (startPolling (initialState []) "abc")
        (Except.ok { job_id := "abc", status := JobStatus.failed, progress := 0,
                     result := some { success := false, error := some "boom" } })).onErrorCalls
      = (startPolling (initialState []) "abc").onErrorCalls
          ++ [failedCallbackMessage
                { job_id := "abc", status := JobStatus.failed, progress := 0,
                  result := some { success := false, error := some "boom" } }] := by
  have h := terminal_observation_timer_once_callback_per_observation
    (startPolling (initialState []) "abc")
    { job_id := "abc", status := JobStatus.completed, progress := 100 } rfl rfl
  have hf := terminal_observation_timer_once_callback_per_observation
    (startPolling (initialState []) "abc")
    { job_id := "abc", status := JobStatus.failed, progress := 0,
      result := some { success := false, error := some "boom" } } rfl rfl
  exact ⟨h.1, (h.2.2.2.2.2.1 rfl).1, (hf.2.2.2.2.2.2 rfl).1⟩

/-- Counterexample to claim C7 as stated: a failed job whose result.error
is present but empty does not reach onError verbatim — JavaScript or
(truthiness) replaces the empty string with the generic fallback, so the
callback receives "Error" instead of the present (empty) message. -/
theorem failed_empty_error_counterexample :
    ({ job_id := "abc", status := JobStatus.failed, progress := 0,
       result := some { success := false, error := some "" } } : JobResponse).result.bind
        ExtractResult.error = some ""
    ∧ (pollJobResolve (startPolling (initialState []) "abc")
        (Except.ok { job_id := "abc", status := JobStatus.failed, progress := 0,
                     result := some { success := false, error := some "" } })).onErrorCalls
      = ["Error"] := by
  exact ⟨rfl, rfl⟩

/-- Claim C7, amended: on a poll observing status failed, onError receives
the message of result.error when it is present and non-empty, and a
generic fallback otherwise (also when the present message is the empty
string, by JavaScript truthiness); the persisted identifier is cleared
and the timer canceled.  In particular a failed job carrying
result.error "Video too long" surfaces exactly that message. -/
theorem failed_status_error_callback (s : HookState) (j : JobResponse) (e : String)
    (hj : j.status = JobStatus.failed) :
    (pollJobResolve s (Except.ok j)).onErrorCalls
        = s.onErrorCalls ++ [failedCallbackMessage j]
    ∧ (j.result.bind ExtractResult.error = some e → e ≠ "" → failedCallbackMessage j = e)
    ∧ (j.result.bind ExtractResult.error = none → failedCallbackMessage j = "Error")
    ∧ (j.result.bind ExtractResult.error = some "" → failedCallbackMessage j = "Error")
    ∧ getSavedJobId (pollJobResolve s (Except.ok j)) = none
    ∧ (pollJobResolve s (Except.ok j)).pollingTimer = none
    ∧ (pollJobResolve s (Except.ok j)).isPolling = false
    ∧ (pollJobResolve s (Except.ok j)).cancelCount
        = (if s.pollingTimer.isSome then s.cancelCount + 1 else s.cancelCount)
    ∧ (pollJobResolve s (Except.ok j)).error = some (failedStateMessage j)
    ∧ (pollJobResolve s (Except.ok j)).onCompleteCalls = s.onCompleteCalls := by
  refine ⟨?_, ?_, ?_, ?_, ?_, ?_, ?_, ?_, ?_, ?_⟩
  · cases h : s.pollingTimer <;> simp [pollJobResolve, hj, clearJobId, stopTimer, h]
  · intro he hne
    simp [failedCallbackMessage, jsOrElse, he, hne]
  · intro he
    simp [failedCallbackMessage, jsOrElse, he]
  · intro he
    simp [failedCallbackMessage, jsOrElse, he]
  · cases h : s.pollingTimer <;>
      simp [pollJobResolve, hj, clearJobId, stopTimer, h, getSavedJobId,
        getItem_removeItem_self]
  · cases h : s.pollingTimer <;> simp [pollJobResolve, hj, clearJobId, stopTimer, h]
  · cases h : s.pollingTimer <;> simp [pollJobResolve, hj, clearJobId, stopTimer, h]
  · cases h : s.pollingTimer <;> simp [pollJobResolve, hj, clearJobId, stopTimer, h]
  · cases h : s.pollingTimer <;> simp [pollJobResolve, hj, clearJobId, stopTimer, h]
  · cases h : s.pollingTimer <;> simp [pollJobResolve, hj, clearJobId, stopTimer, h]

/-- Witness for failed_status_error_callback: the concrete failed job
with result.error "Video too long" surfaces exactly that message, and
the persisted identifier is cleared. -/
theorem failed_status_error_callback_witness :
    (pollJobResolve (startPolling (initialState [(STORAGE_KEY, "abc")]) "abc")
        (Except.ok { job_id := "abc", status := JobStatus.failed, progress := 40,
                     result := some { success := false, error := some "Video too long" } })).onErrorCalls
      = ["Video too long"]
    ∧ getSavedJobId (pollJobResolve (startPolling (initialState [(STORAGE_KEY, "abc")]) "abc")
        (Except.ok { job_id := "abc", status := JobStatus.failed, progress := 40,
                     result := some { success := false, error := some "Video too long" } }))
      = none
    ∧ failedCallbackMessage { job_id := "abc", status := JobStatus.failed, progress := 0,
                              result := some { success := false } } = "Error"
    ∧ failedCallbackMessage { job_id := "abc", status := JobStatus.failed, progress := 0,
                              result := some { success := false, error := some "" } }
      = "Error" := by
  have h := failed_status_error_callback
    (startPolling (initialState [(STORAGE_KEY, "abc")]) "abc")
    { job_id := "abc", status := JobStatus.failed, progress := 40,
      result := some { success := false, error := some "Video too long" } }
    "Video too long" rfl
  have h1 := failed_status_error_callback (initialState [])
    { job_id := "abc", status := JobStatus.failed, progress := 0,
      result := some { success := false } } "x" rfl
  have h2 := failed_status_error_callback (initialState [])
    { job_id := "abc", status := JobStatus.failed, progress := 0,
      result := some { success := false, error := some "" } } "x" rfl
  refine ⟨?_, h.2.2.2.2.1, h1.2.2.1 rfl, h2.2.2.2.1 rfl⟩
  rw [h.1, h.2.1 rfl (by decide)]
  rfl

/-- Claim C3: case analysis of resume() at controller start-up.  With no
persisted identifier it is a no-op; a failing status fetch discards the
identifier and starts no polling and issues no further fetch; a
non-terminal status resumes polling for the persisted identifier
(without re-persisting); a terminal status discards the identifier,
starts no timer, and fires onComplete exactly when the status is
completed. -/
theorem resume_case_analysis (s : HookState) (savedId : String) (j : JobResponse) :
    (getSavedJobId s = none → resumeStart s = s)
    ∧ ((resumeResolve s savedId (Except.error ())).storage = s.storage.removeItem STORAGE_KEY
        ∧ getSavedJobId (resumeResolve s savedId (Except.error ())) = none
        ∧ (resumeResolve s savedId (Except.error ())).pollingTimer = s.pollingTimer
        ∧ (resumeResolve s savedId (Except.error ())).statusFetches = s.statusFetches
        ∧ (resumeResolve s savedId (Except.error ())).onCompleteCalls = s.onCompleteCalls
        ∧ (resumeResolve s savedId (Except.error ())).onErrorCalls = s.onErrorCalls)
    ∧ (resumableStatuses.contains j.status = true →
        ((resumeResolve s savedId (Except.ok j)).isPolling = true
         ∧ (resumeResolve s savedId (Except.ok j)).pollingTimer.isSome = true
         ∧ (resumeResolve s savedId (Except.ok j)).jobIdRef = some savedId
         ∧ (resumeResolve s savedId (Except.ok j)).statusFetches = s.statusFetches ++ [savedId]
         ∧ (resumeResolve s savedId (Except.ok j)).storage = s.storage))
    ∧ (j.status.isTerminal = true →
        (getSavedJobId (resumeResolve s savedId (Except.ok j)) = none
         ∧ (resumeResolve s savedId (Except.ok j)).pollingTimer = s.pollingTimer
         ∧ (resumeResolve s savedId (Except.ok j)).statusFetches = s.statusFetches
         ∧ (resumeResolve s savedId (Except.ok j)).onCompleteCalls
             = s.onCompleteCalls ++ (if j.status = JobStatus.completed then [j] else [])
         ∧ (resumeResolve s savedId (Except.ok j)).onErrorCalls = s.onErrorCalls)) := by
  refine ⟨?_, ?_, ?_, ?_⟩
  · intro hnone
    simp [resumeStart, hnone]
  · refine ⟨rfl, ?_, rfl, rfl, rfl, rfl⟩
    simp [getSavedJobId, resumeResolve, clearJobId, getItem_removeItem_self]
  · intro hres
    rcases j with ⟨id, st, pr, msg, ca, vi, res⟩
    cases st <;>
      simp_all [resumeResolve, resumableStatuses, startPolling]
  · intro hterm
    rcases j with ⟨id, st, pr, msg, ca, vi, res⟩
    cases st <;>
      simp_all [resumeResolve, resumableStatuses, clearJobId, JobStatus.isTerminal,
        getSavedJobId, getItem_removeItem_self]

/-- Witness for resume_case_analysis: one resumable (processing) job
resumes polling, and one already-completed job fires onComplete with the
identifier cleared and no timer started. -/
theorem resume_case_analysis_witness :
    (resumeResolve (initialState [(STORAGE_KEY, "abc")]) "abc"
        (Except.ok { job_id := "abc", status := JobStatus.processing, progress := 10 })).isPolling
      = true
    ∧ getSavedJobId (resumeResolve (initialState [(STORAGE_KEY, "abc")]) "abc"
        (Except.ok { job_id := "abc", status := JobStatus.completed, progress := 100 }))
      = none
    ∧ (resumeResolve (initialState [(STORAGE_KEY, "abc")]) "abc"
        (Except.ok { job_id := "abc", status := JobStatus.completed, progress := 100 })).onCompleteCalls
      = (initialState [(STORAGE_KEY, "abc")]).onCompleteCalls
          ++ [{ job_id := "abc", status := JobStatus.completed, progress := 100 }]
    ∧ resumeStart (initialState []) = initialState [] := by
  have h1 := resume_case_analysis (initialState [(STORAGE_KEY, "abc")]) "abc"
    { job_id := "abc", status := JobStatus.processing, progress := 10 }
  have h2 := resume_case_analysis (initialState [(STORAGE_KEY, "abc")]) "abc"
    { job_id := "abc", status := JobStatus.completed, progress := 100 }
  have h0 := resume_case_analysis (initialState []) "none-saved"
    { job_id := "abc", status := JobStatus.pending, progress := 0 }
  refine ⟨(h1.2.2.1 (by decide)).1, (h2.2.2.2 rfl).1, ?_, h0.1 rfl⟩
  rw [(h2.2.2.2 rfl).2.2.2.1]
  rfl

/-- Claim C4: loop start issues exactly one immediate status fetch and
arms the interval timer; each interval tick with a live timer and a
recorded identifier issues exactly one further fetch; observing a
terminal status clears the timer, after which a tick is a no-op, while a
non-terminal observation leaves the timer untouched; the interval is the
supplied pollingInterval, defaulting to 1000 ms. -/
theorem polling_loop_fetch_schedule (s : HookState) (jobId : String) (j : JobResponse)
    (n : Nat) :
    (startPolling s jobId).statusFetches = s.statusFetches ++ [jobId]
    ∧ (startPolling s jobId).pollingTimer.isSome = true
    ∧ (timerTick (startPolling s jobId)).statusFetches = s.statusFetches ++ [jobId, jobId]
    ∧ (s.pollingTimer.isSome = true → s.jobIdRef = some jobId →
        (timerTick s).statusFetches = s.statusFetches ++ [jobId])
    ∧ (j.status.isTerminal = true →
        ((pollJobResolve s (Except.ok j)).pollingTimer = none
         ∧ timerTick (pollJobResolve s (Except.ok j)) = pollJobResolve s (Except.ok j)))
    ∧ (j.status.isTerminal = false →
        (pollJobResolve s (Except.ok j)).pollingTimer = s.pollingTimer)
    ∧ resolvedPollingInterval { pollingInterval := none } = 1000
    ∧ resolvedPollingInterval { pollingInterval := some n } = n := by
  refine ⟨?_, rfl, ?_, ?_, ?_, ?_, rfl, rfl⟩
  · simp [startPolling]
  · simp [timerTick, startPolling]
  · intro h1 h2
    obtain ⟨t, htt⟩ := Option.isSome_iff_exists.mp h1
    simp [timerTick, htt, h2]
  · intro hterm
    rcases j with ⟨id, st, pr, msg, ca, vi, res⟩
    cases h : s.pollingTimer <;>
      cases st <;>
        simp_all [pollJobResolve, clearJobId, stopTimer, timerTick, JobStatus.isTerminal]
  · intro hnonterm
    rcases j with ⟨id, st, pr, msg, ca, vi, res⟩
    cases h : s.pollingTimer <;>
      cases st <;>
        simp_all [pollJobResolve, clearJobId, stopTimer, JobStatus.isTerminal]

/-- Witness for polling_loop_fetch_schedule at a fresh state, a concrete
completed job and a concrete interval. -/
theorem polling_loop_fetch_schedule_witness :
    (startPolling (initialState []) "abc").statusFetches = ["abc"]
    ∧ (timerTick (startPolling (initialState []) "abc")).statusFetches = ["abc", "abc"]
    ∧ (timerTick (startPolling (initialState []) "abc")).statusFetches
        = (startPolling (initialState []) "abc").statusFetches ++ ["abc"]
    ∧ (pollJobResolve (startPolling (initialState []) "abc")
        (Except.ok { job_id := "abc", status := JobStatus.completed, progress := 100 })).pollingTimer
      = none
    ∧ (pollJobResolve (startPolling (initialState []) "abc")
        (Except.ok { job_id := "abc", status := JobStatus.processing, progress := 10 })).pollingTimer
      = (startPolling (initialState []) "abc").pollingTimer
    ∧ resolvedPollingInterval { pollingInterval := none } = 1000
    ∧ resolvedPollingInterval { pollingInterval := some 500 } = 500 := by
  have h := polling_loop_fetch_schedule (startPolling (initialState []) "abc") "abc"
    { job_id := "abc", status := JobStatus.completed, progress := 100 } 500
  have h0 := polling_loop_fetch_schedule (initialState []) "abc"
    { job_id := "abc", status := JobStatus.completed, progress := 100 } 500
  have hp := polling_loop_fetch_schedule (startPolling (initialState []) "abc") "abc"
    { job_id := "abc", status := JobStatus.processing, progress := 10 } 500
  exact ⟨h0.1, h0.2.2.1, h.2.2.2.1 rfl rfl, (h.2.2.2.2.1 rfl).1,
    hp.2.2.2.2.2.1 rfl, h.2.2.2.2.2.2.1, h.2.2.2.2.2.2.2⟩

/-- Claim C5: a successful submit (extract) first tears down any previous
timer and clears prior error/job state before its fetch begins (so at
most one loop is ever live), then stores the returned Job, persists its
job_id under the single fixed STORAGE_KEY slot (leaving every other
storage key untouched), and starts the polling loop with its immediate
fetch. -/
theorem extract_success_effects (s : HookState) (newJob : JobResponse) (k : String)
    (hk : k ≠ STORAGE_KEY) :
    (extractStart s).pollingTimer = none
    ∧ (extractStart s).cancelCount
        = (if s.pollingTimer.isSome then s.cancelCount + 1 else s.cancelCount)
    ∧ (extractStart s).error = none
    ∧ (extractStart s).job = none
    ∧ (extractStart s).isPolling = false
    ∧ (extractStart s).statusFetches = s.statusFetches
    ∧ (extractStart s).storage = s.storage
    ∧ (extractResolve (extractStart s) (Except.ok newJob)).job = some newJob
    ∧ getSavedJobId (extractResolve (extractStart s) (Except.ok newJob)) = some newJob.job_id
    ∧ (extractResolve (extractStart s) (Except.ok newJob)).storage.getItem k
        = s.storage.getItem k
    ∧ (extractResolve (extractStart s) (Except.ok newJob)).pollingTimer.isSome = true
    ∧ (extractResolve (extractStart s) (Except.ok newJob)).isPolling = true
    ∧ (extractResolve (extractStart s) (Except.ok newJob)).jobIdRef = some newJob.job_id
    ∧ (extractResolve (extractStart s) (Except.ok newJob)).statusFetches
        = s.statusFetches ++ [newJob.job_id] := by
  refine ⟨?_, ?_, rfl, rfl, rfl, ?_, ?_, ?_, ?_, ?_, ?_, ?_, ?_, ?_⟩ <;>
    cases h : s.pollingTimer <;>
      simp [extractStart, extractResolve, stopTimer, startPolling, saveJobId,
        getSavedJobId, getItem_setItem_self, getItem_setItem_ne _ _ _ _ hk, h]

/-- Witness for extract_success_effects at a concrete state containing a
live previous loop and an unrelated storage key. -/
theorem extract_success_effects_witness :
    (extractStart (startPolling (initialState [("other", "v")]) "prev")).pollingTimer = none
    ∧ getSavedJobId (extractResolve
        (extractStart (startPolling (initialState [("other", "v")]) "prev"))
        (Except.ok { job_id := "new1", status := JobStatus.pending, progress := 0 }))
      = some "new1"
    ∧ (extractResolve
        (extractStart (startPolling (initialState [("other", "v")]) "prev"))
        (Except.ok { job_id := "new1", status := JobStatus.pending, progress := 0 })).storage.getItem
          "other"
      = (startPolling (initialState [("other", "v")]) "prev").storage.getItem "other" := by
  have h := extract_success_effects (startPolling (initialState [("other", "v")]) "prev")
    { job_id := "new1", status := JobStatus.pending, progress := 0 } "other" (by decide)
  exact ⟨h.1, h.2.2.2.2.2.2.2.2.1, h.2.2.2.2.2.2.2.2.2.1⟩

/-- Claim C9: a non-2xx HTTP response surfaces the body's detail field
verbatim as the error message in both API clients; an unparsable body
yields the generic "Error desconocido", and a parsable body without a
usable detail (absent, or empty by JavaScript truthiness) yields each
client's generic fallback. -/
theorem nonOk_response_error_detail (resp : HttpResponse) (d : String)
    (hok : resp.ok = false) :
    (resp.body = some { detail := some d } → d ≠ "" →
        (requestErrorMessage resp = some d ∧ handleResponseErrorMessage resp = some d))
    ∧ (resp.body = none →
        (requestErrorMessage resp = some "Error desconocido"
         ∧ handleResponseErrorMessage resp = some "Error desconocido"))
    ∧ (resp.body = some { detail := none } →
        (requestErrorMessage resp = some ("HTTP " ++ toString resp.status)
         ∧ handleResponseErrorMessage resp = some "Error en la solicitud"))
    ∧ (resp.body = some { detail := some "" } →
        (requestErrorMessage resp = some ("HTTP " ++ toString resp.status)
         ∧ handleResponseErrorMessage resp = some "Error en la solicitud")) := by
  refine ⟨?_, ?_, ?_, ?_⟩ <;>
    intro hbody <;>
      simp [requestErrorMessage, handleResponseErrorMessage, jsOrElse, hok, hbody]
  intro hne
  simp [hne]

/-- Witness for nonOk_response_error_detail: a 422 response whose body
carries detail "Video too long" surfaces it verbatim, and a 500 response
with an unparsable body surfaces "Error desconocido". -/
theorem nonOk_response_error_detail_witness :
    requestErrorMessage { status := 422, body := some { detail := some "Video too long" } }
      = some "Video too long"
    ∧ handleResponseErrorMessage { status := 422, body := some { detail := some "Video too long" } }
      = some "Video too long"
    ∧ requestErrorMessage { status := 500, body := none } = some "Error desconocido"
    ∧ requestErrorMessage { status := 404, body := some { detail := none } }
      = some ("HTTP " ++ toString ({ status := 404, body := some { detail := none } } : HttpResponse).status)
    ∧ handleResponseErrorMessage { status := 404, body := some { detail := some "" } }
      = some "Error en la solicitud" := by
  have h1 := nonOk_response_error_detail
    { status := 422, body := some { detail := some "Video too long" } } "Video too long"
    (by decide)
  have h2 := nonOk_response_error_detail { status := 500, body := none } "x" (by decide)
  have h3 := nonOk_response_error_detail { status := 404, body := some { detail := none } }
    "x" (by decide)
  have h4 := nonOk_response_error_detail { status := 404, body := some { detail := some "" } }
    "x" (by decide)
  exact ⟨(h1.1 rfl (by decide)).1, (h1.1 rfl (by decide)).2, (h2.2.1 rfl).1,
    (h3.2.2.1 rfl).1, (h4.2.2.2 rfl).2⟩
